import Mathlib

/-!
Verification development for the prompt-generation service
(prompt assembly, quality-gate validator, token-budget governor,
rate-limiting admission layer, checklist parsing, request handler).

Each definition is a shallow embedding of the corresponding TypeScript
function; machine integers are modelled as `Nat`, JavaScript strings as
Lean `String` (a list of Unicode code points), `Date.now()` timestamps as
`Nat` milliseconds passed explicitly, and fallible external collaborators
(schema validation, rule-pack loading, the external model call) as
explicit `Option`/function fields of a handler environment.
-/

/-! ### String utilities

`listIsPre n h` decides whether `n` is a leading segment of `h`;
`listIsSub n h` decides whether `n` occurs contiguously inside `h`.
`strContains hay needle` models JavaScript `hay.includes(needle)`.
-/

def listIsPre : List Char → List Char → Bool
  | [], _ => true
  | _ :: _, [] => false
  | a :: as, b :: bs => a == b && listIsPre as bs

def listIsSub (n : List Char) : List Char → Bool
  | [] => n.isEmpty
  | c :: hs => listIsPre n (c :: hs) || listIsSub n hs

def strContains (hay needle : String) : Bool :=
  listIsSub needle.data hay.data

/-- Character-wise lower-casing, modelling `String.prototype.toLowerCase`
on its ASCII fragment (`Char.toLower` maps `A`-`Z` to `a`-`z` and leaves
every other code point, in particular all Korean syllables, unchanged;
the phrases the validator lower-cases are Korean-only). -/
def lowerStr (s : String) : String :=
  String.mk (s.data.map Char.toLower)

/-- `Array.prototype.join(sep)`: empty array gives `""`, otherwise the
elements interleaved with the separator. -/
def joinSep (sep : String) : List String → String
  | [] => ""
  | [x] => x
  | x :: y :: xs => x ++ sep ++ joinSep sep (y :: xs)

/-! ### Enumerations (src/types/rulepack.ts) -/

inductive Format where
  | press_release
  | speech
  | sns
  | inquiry
  | report
  | media_scraping
deriving DecidableEq

inductive ValidationLevel where
  | basic
  | intermediate
  | advanced
deriving DecidableEq

/-- The raw enum string of a level (zod enum values). -/
def levelKey : ValidationLevel → String
  | .basic => "basic"
  | .intermediate => "intermediate"
  | .advanced => "advanced"

/-! ### Display-name lookup tables (prompt-generator.ts) -/

def getFormatDisplayName : Format → String
  | .press_release => "보도자료"
  | .speech => "연설문"
  | .sns => "SNS 게시글"
  | .inquiry => "자료제출"
  | .report => "보고서"
  | .media_scraping => "이슈 분석"

def getLevelDisplayName : ValidationLevel → String
  | .basic => "기본"
  | .intermediate => "중급"
  | .advanced => "고급"

/-- `getSectionDisplayName`: fixed lookup table; unknown keys display
verbatim (`displayNames[section] || section`). -/
def getSectionDisplayName (sectionKey : String) : String :=
  if sectionKey = "headline" then "제목"
  else if sectionKey = "lead" then "리드 문단"
  else if sectionKey = "body" then "본문"
  else if sectionKey = "quote" then "인용문"
  else if sectionKey = "background" then "배경 정보"
  else if sectionKey = "contact" then "연락처"
  else if sectionKey = "opening" then "오프닝"
  else if sectionKey = "introduction" then "도입부"
  else if sectionKey = "main_points" then "주요 포인트"
  else if sectionKey = "conclusion" then "결론"
  else if sectionKey = "closing" then "마무리"
  else if sectionKey = "hook" then "훅"
  else if sectionKey = "main_content" then "메인 콘텐츠"
  else if sectionKey = "call_to_action" then "행동 유도"
  else if sectionKey = "hashtags" then "해시태그"
  else if sectionKey = "summary" then "요약"
  else if sectionKey = "analysis" then "분석"
  else if sectionKey = "appendix" then "부록"
  else sectionKey

/-- `getComplianceRuleDescription`: fixed lookup table; unknown rule
identifiers render as-is. -/
def getComplianceRuleDescription (rule : String) : String :=
  if rule = "facts_required" then "객관적 사실 기반 작성 필수"
  else if rule = "source_required" then "출처 및 근거 명시 필수"
  else if rule = "objective_tone" then "객관적 어조 유지"
  else if rule = "no_exaggeration" then "과장된 표현 금지"
  else if rule = "evidence_based" then "증거 기반 내용 작성"
  else if rule = "accuracy_required" then "정확성 검증 필수"
  else if rule = "official_tone" then "공식적 어조 유지"
  else if rule = "character_limit" then "글자 수 제한 준수"
  else if rule = "platform_optimized" then "플랫폼 최적화"
  else if rule = "engaging_content" then "흥미로운 내용 구성"
  else if rule = "accurate_information" then "정확한 정보 제공"
  else if rule = "appropriate_hashtags" then "적절한 해시태그 사용"
  else if rule = "audience_appropriate" then "청중에 적합한 내용"
  else if rule = "clear_message" then "명확한 메시지 전달"
  else if rule = "logical_flow" then "논리적 구성"
  else if rule = "respectful_tone" then "존중하는 어조"
  else if rule = "complete_information" then "완전한 정보 제공"
  else if rule = "clear_structure" then "명확한 구조"
  else if rule = "contact_included" then "연락처 정보 포함"
  else rule

/-! ### Rule-pack data model (src/types/rulepack.ts)

`modes` (a zod record) is modelled as an association list keyed by mode
name; `structureHints` (an untyped record, unused by the embedded code
paths) is omitted.
-/

structure Mode where
  description : String
  requiredSections : List String

structure Rulepack where
  id : String
  requiredSections : List String
  toneDefault : String
  dos : List String
  donts : List String
  complianceRules : List String
  modes : List (String × Mode)

/-- `getTokenLimitForLevel` (prompt-generator.ts): env-configured limits
with defaults 300/600/900 (modelled with the env vars unset). -/
def getTokenLimitForLevel : ValidationLevel → Nat
  | .basic => 300
  | .intermediate => 600
  | .advanced => 900

/-- `getRequiredSectionsForMode`: if the rule-pack declares modes and the
requested mode exists, use that mode's sections, else the default list. -/
def getRequiredSectionsForMode (rulepack : Rulepack) (mode : Option String) :
    List String :=
  match mode with
  | some m =>
    match rulepack.modes.lookup m with
    | some md => md.requiredSections
    | none => rulepack.requiredSections
  | none => rulepack.requiredSections

/-! ### Prompt assembly engine (prompt-generator.ts)

`generateSystemPrompt` and `generateUserPrompt` build a list of lines in
a fixed order (mirroring the sequential `sections.push` calls of the
source) and join them with `"\n"`.
-/

structure SystemPromptConfig where
  rulepack : Rulepack
  format : Format
  level : ValidationLevel
  tone : String
  mode : Option String
  additionalRequirements : List String
  strictMode : Bool

/-- The unconditional leading lines of the system prompt. -/
def systemPromptBase (config : SystemPromptConfig) : List String :=
  let tokenLimit := getTokenLimitForLevel config.level
  let formatName := getFormatDisplayName config.format
  let levelName := getLevelDisplayName config.level
  let requiredSections := getRequiredSectionsForMode config.rulepack config.mode
  [ "당신은 한국 국회 보좌진용 프롬프트 생성 전문가입니다.",
    "사용자가 제시한 주제와 조건을 분석하여, 해당 주제에 특화된 " ++ formatName ++ " 작성용 프롬프트를 생성하세요.",
    "",
    "📋 " ++ formatName ++ " 기본 구조:",
    joinSep "\n" (requiredSections.map (fun s => "• " ++ getSectionDisplayName s)),
    "",
    "✅ 작성 원칙:",
    joinSep "\n" (config.rulepack.dos.map (fun d => "• " ++ d)),
    "",
    "❌ 금지사항:",
    joinSep "\n" (config.rulepack.donts.map (fun d => "• " ++ d)),
    "",
    "🎯 프롬프트 생성 지침:",
    "1. 주제를 분석하여 해당 분야의 특성을 파악하세요",
    "2. 주제에 맞는 전문적 역할을 정의하세요 (예: \"디지털정책 전문가\", \"환경정책 분석가\")",
    "3. 해당 분야에서 중요한 구체적 질문들을 포함하세요",
    "4. 주제 관련 전문 용어나 고려사항을 명시하세요",
    "5. " ++ levelName ++ " 수준에 맞는 작성 가이드를 제시하세요",
    "6. " ++ toString tokenLimit ++ "토큰 이내 작성 지침을 포함하세요" ]

/-- Optional compliance-rules block of the system prompt. -/
def systemPromptCompliance (config : SystemPromptConfig) : List String :=
  if config.rulepack.complianceRules ≠ [] then
    ["", "🔒 준수사항:"] ++
      config.rulepack.complianceRules.map
        (fun rule => "• " ++ getComplianceRuleDescription rule)
  else []

/-- Optional additional-requirements block of the system prompt. -/
def systemPromptAdditional (config : SystemPromptConfig) : List String :=
  if config.additionalRequirements ≠ [] then
    ["", "🎯 특별 요구사항:"] ++
      config.additionalRequirements.map (fun req => "• " ++ req)
  else []

/-- Optional strict-mode block of the system prompt. -/
def systemPromptStrict (config : SystemPromptConfig) : List String :=
  if config.strictMode then
    ["", "⚠️ 엄격 모드: 출처 명시와 사실 검증을 강조하는 지침을 반드시 포함하세요."]
  else []

/-- The unconditional closing lines of the system prompt. -/
def systemPromptClosing : List String :=
  [ "",
    "생성할 프롬프트는 다른 AI가 바로 복사해서 사용할 수 있는 완성된 형태여야 합니다.",
    "프롬프트 생성 과정이나 설명은 포함하지 말고, 순수한 프롬프트 텍스트만 출력하세요." ]

/-- `PromptGenerator.generateSystemPrompt`. -/
def generateSystemPrompt (config : SystemPromptConfig) : String :=
  joinSep "\n"
    (systemPromptBase config ++ systemPromptCompliance config ++
      systemPromptAdditional config ++ systemPromptStrict config ++
      systemPromptClosing)

structure PromptRequest where
  format : Format
  level : ValidationLevel
  topic : String
  context : Option String
  tone : Option String
  mode : Option String
  additionalRequirements : Option (List String)

/-- The unconditional leading lines of the user prompt. -/
def userPromptBase (request : PromptRequest) : List String :=
  [ "다음 조건으로 " ++ getFormatDisplayName request.format ++ " 작성용 맞춤형 프롬프트를 생성해주세요:",
    "",
    "📌 주제: " ++ request.topic,
    "📊 수준: " ++ getLevelDisplayName request.level ]

/-- Optional context block of the user prompt. -/
def userPromptContext (request : PromptRequest) : List String :=
  match request.context with
  | some c => ["📄 배경상황: " ++ c]
  | none => []

/-- Optional additional-requirements block of the user prompt. -/
def userPromptAdditional (request : PromptRequest) : List String :=
  match request.additionalRequirements with
  | some reqs =>
    if reqs.length > 0 then
      ["", "🎯 추가 요구사항:"] ++ reqs.map (fun req => "• " ++ req)
    else []
  | none => []

/-- The unconditional closing lines of the user prompt. -/
def userPromptClosing : List String :=
  [ "",
    "위 주제를 분석하여 해당 분야에 특화된 구체적이고 실용적인 프롬프트를 생성하세요.",
    "주제의 특성, 관련 전문 용어, 해당 분야에서 중요한 고려사항들을 반영해주세요." ]

/-- `PromptGenerator.generateUserPrompt`. -/
def generateUserPrompt (request : PromptRequest) : String :=
  joinSep "\n"
    (userPromptBase request ++ userPromptContext request ++
      userPromptAdditional request ++ userPromptClosing)

/-! ### Quality-gate validator (`PromptGenerator.validatePrompt`) -/

/-- The fixed meta-instruction leak phrase list (check #2). -/
def metaInstructions : List String :=
  [ "프롬프트를 생성",
    "프롬프트를 출력",
    "위 모든 항목을 반영한",
    "작성용 프롬프트를",
    "출력하십시오",
    "생성해주세요",
    "만들어주세요",
    "프롬프트 생성 과정" ]

/-- The fixed generic-phrase list (check #3). -/
def genericPhrases : List String :=
  ["일반적인", "보편적인", "표준적인", "평범한"]

/-- Check #1: topic-specific role definition present. -/
def roleCheck (promptText : String) : Bool :=
  strContains promptText "당신은" &&
    (strContains promptText "전문가" || strContains promptText "작성자")

/-- Check #2 helper: the meta phrases found in the lower-cased text. -/
def foundMetaInstructions (promptText : String) : List String :=
  metaInstructions.filter
    (fun meta => strContains (lowerStr promptText) (lowerStr meta))

/-- Check #3: topic customization (no generic phrase, length above 500). -/
def customizationCheck (promptText : String) : Bool :=
  (!genericPhrases.any (fun phrase => strContains promptText phrase)) &&
    decide (promptText.length > 500)

/-- Check #4: format display name mentioned. -/
def formatCheck (promptText : String) (format : Format) : Bool :=
  strContains promptText (getFormatDisplayName format)

/-- Check #5: structure guidelines present. -/
def structureCheck (promptText : String) : Bool :=
  strContains promptText "구조" || strContains promptText "구성" ||
    strContains promptText "섹션" || strContains promptText "형식"

/-- Check #6: specific instructions or constraints present. -/
def instructionCheck (promptText : String) : Bool :=
  strContains promptText "작성 원칙" || strContains promptText "지침" ||
    strContains promptText "요구사항" || strContains promptText "주의사항"

/-- Check #7: actionable final instruction present. -/
def actionableCheck (promptText : String) : Bool :=
  strContains promptText "작성해" || strContains promptText "만들어" ||
    strContains promptText "생성해"

/-- `Math.round((passed / total) * 100)` on the exact rational value
(the eight floating-point values that occur for `total = 7` all round
identically to the rational computation). -/
def roundPct (passed total : Nat) : Nat :=
  (passed * 200 + total) / (2 * total)

structure PromptValidation where
  isValid : Bool
  warnings : List String
  errors : List String

structure PromptChecklist where
  format : Format
  level : ValidationLevel
  passed : List String
  failed : List String
  score : Nat
  totalChecks : Nat
  passedChecks : Nat

structure ValidatePromptResult where
  validation : PromptValidation
  checklist : PromptChecklist
  overallScore : Nat

/-- `PromptGenerator.validatePrompt`: the seven-check quality gate.
Checks #1 and #2 push onto `errors` (hard), #3-#7 onto `warnings`
(soft); `isValid` is `errors = []`; the overall score is capped at 60
when invalid. -/
def validatePrompt (promptText : String) (format : Format)
    (level : ValidationLevel) : ValidatePromptResult :=
  let c1 := roleCheck promptText
  let found := foundMetaInstructions promptText
  let c2 := found.isEmpty
  let c3 := customizationCheck promptText
  let c4 := formatCheck promptText format
  let c5 := structureCheck promptText
  let c6 := instructionCheck promptText
  let c7 := actionableCheck promptText
  let passed :=
    (if c1 then ["역할 정의 포함"] else []) ++
    (if c2 then ["메타 지시문 없음"] else []) ++
    (if c3 then ["주제 특화 맞춤형"] else []) ++
    (if c4 then ["형식 명시"] else []) ++
    (if c5 then ["구조 가이드라인"] else []) ++
    (if c6 then ["작성 지침 포함"] else []) ++
    (if c7 then ["실행 가능한 지시"] else [])
  let failed :=
    (if c1 then [] else ["역할 정의 포함"]) ++
    (if c2 then [] else ["메타 지시문 없음"]) ++
    (if c3 then [] else ["주제 특화 맞춤형"]) ++
    (if c4 then [] else ["형식 명시"]) ++
    (if c5 then [] else ["구조 가이드라인"]) ++
    (if c6 then [] else ["작성 지침 포함"]) ++
    (if c7 then [] else ["실행 가능한 지시"])
  let errors :=
    (if c1 then [] else ["프롬프트에 명확한 역할 정의가 없습니다."]) ++
    (if c2 then [] else ["메타 지시문 발견: " ++ joinSep ", " found])
  let warnings :=
    (if c3 then [] else ["주제에 특화된 맞춤형 내용이 부족해 보입니다."]) ++
    (if c4 then [] else [getFormatDisplayName format ++ " 형식이 명시되지 않았습니다."]) ++
    (if c5 then [] else ["구조나 구성에 대한 가이드라인이 부족합니다."]) ++
    (if c6 then [] else ["구체적인 작성 지침이나 요구사항이 부족합니다."]) ++
    (if c7 then [] else ["명확한 실행 지시가 없습니다."])
  let totalChecks := 7
  let passedChecks := passed.length
  let score := roundPct passedChecks totalChecks
  let isValid := errors.isEmpty
  let overallScore := if isValid then score else min score 60
  { validation := { isValid := isValid, warnings := warnings, errors := errors }
    checklist :=
      { format := format, level := level, passed := passed, failed := failed,
        score := score, totalChecks := totalChecks, passedChecks := passedChecks }
    overallScore := overallScore }

/-! ### Token estimator and budget governor (token-guard.ts)

`estimatedCost` (a `Float` USD amount) is not modelled: no claim
touches it and it feeds nothing else. The `0.2`/`0.8`/`0.9` float
factors are modelled as exact rationals; at the configured limits
(multiples of 100) the floating-point and rational computations agree.
-/

/-- The Korean-range character classes of the estimator's regex
`[㄰-㆏가-힯]`. -/
def isKoreanChar (c : Char) : Bool :=
  (0x3130 ≤ c.toNat && c.toNat ≤ 0x318F) ||
    (0xAC00 ≤ c.toNat && c.toNat ≤ 0xD7AF)

/-- `TokenGuard.estimateTokens`: Korean characters at 1 token per 2.5
characters, the rest at 1 token per 4 characters, each contribution
rounded up (`Math.ceil`) separately. `(2*k + 4) / 5 = ⌈k / 2.5⌉` and
`(e + 3) / 4 = ⌈e / 4⌉` on naturals. -/
def estimateTokens (text : String) : Nat :=
  if text = "" then 0
  else
    let koreanChars := (text.data.filter isKoreanChar).length
    let englishChars := text.data.length - koreanChars
    (2 * koreanChars + 4) / 5 + (englishChars + 3) / 4

/-- The token-guard limits configuration (defaults 300/600/900 with the
env vars unset), same values as `getTokenLimitForLevel`. -/
def tokenGuardLimits : ValidationLevel → Nat
  | .basic => 300
  | .intermediate => 600
  | .advanced => 900

/-- `TokenGuard.estimateCompletionTokens`. -/
def estimateCompletionTokens (format : Format) (level : ValidationLevel) : Nat :=
  match format, level with
  | .press_release, .basic => 150
  | .press_release, .intermediate => 250
  | .press_release, .advanced => 350
  | .speech, .basic => 200
  | .speech, .intermediate => 300
  | .speech, .advanced => 450
  | .sns, .basic => 50
  | .sns, .intermediate => 100
  | .sns, .advanced => 150
  | .inquiry, .basic => 180
  | .inquiry, .intermediate => 280
  | .inquiry, .advanced => 400
  | .report, .basic => 250
  | .report, .intermediate => 400
  | .report, .advanced => 550
  | .media_scraping, .basic => 120
  | .media_scraping, .intermediate => 200
  | .media_scraping, .advanced => 300

structure TokenUsage where
  promptTokens : Nat
  completionTokens : Nat
  totalTokens : Nat

structure TokenGuardResult where
  allowed : Bool
  usage : TokenUsage
  limit : Nat
  remaining : Nat
  warnings : List String
  suggestions : List String

/-- The level the over-limit suggestion proposes dropping to
(`level === 'advanced' ? 'intermediate' : 'basic'`). -/
def lowerLevelOf : ValidationLevel → ValidationLevel
  | .advanced => .intermediate
  | _ => .basic

/-- `TokenGuard.checkTokenLimits` (pure part; logging omitted).
`Math.floor(limit * 0.2)` is `limit / 5`; `Math.max(0, a - b)` is `Nat`
subtraction; the float comparisons against `0.8 * maxPromptTokens` and
`0.9 * limit` are the exact rational comparisons. -/
def checkTokenLimits (systemPrompt userPrompt : String) (format : Format)
    (level : ValidationLevel) : TokenGuardResult :=
  let promptTokens := estimateTokens (systemPrompt ++ userPrompt)
  let limit := tokenGuardLimits level
  let reservedTokens := limit / 5
  let maxPromptTokens := limit - reservedTokens
  let allowed := promptTokens ≤ maxPromptTokens
  let remaining := maxPromptTokens - promptTokens
  let estimatedCompletionTokens := estimateCompletionTokens format level
  let totalEstimatedTokens := promptTokens + estimatedCompletionTokens
  let branchWarnings :=
    if !allowed then
      ["프롬프트 토큰이 " ++ levelKey level ++ " 레벨 한도를 초과했습니다 (" ++
        toString promptTokens ++ "/" ++ toString maxPromptTokens ++ ")"]
    else if 10 * promptTokens > 8 * maxPromptTokens then
      ["토큰 사용량이 높습니다 (" ++ toString promptTokens ++ "/" ++
        toString maxPromptTokens ++ ")"]
    else []
  let suggestions :=
    if !allowed then
      ["주제를 더 간결하게 작성해보세요", "배경 정보를 줄여보세요"] ++
        (if level ≠ .basic then
          [levelKey (lowerLevelOf level) ++ " 레벨로 변경해보세요"]
        else [])
    else if 10 * promptTokens > 8 * maxPromptTokens then
      ["더 나은 성능을 위해 내용을 줄여보세요"]
    else []
  let warnings :=
    branchWarnings ++
      (if 10 * totalEstimatedTokens > 9 * limit then
        ["예상 총 토큰이 한도에 가깝습니다 (" ++ toString totalEstimatedTokens ++
          "/" ++ toString limit ++ ")"]
      else [])
  { allowed := allowed
    usage :=
      { promptTokens := promptTokens,
        completionTokens := estimatedCompletionTokens,
        totalTokens := totalEstimatedTokens }
    limit := limit
    remaining := remaining
    warnings := warnings
    suggestions := suggestions }

/-- Modelled from the spec (§4.3, C5's reading): partition the text into
dense-script and other characters, count them at 1 per 2.5 and 1 per 4
characters respectively, sum the two (rational) contributions and round
the *sum* up: `⌈2k/5 + e/4⌉ = ⌈(8k + 5e)/20⌉ = (8k + 5e + 19) / 20`. -/
def estimateTokensSpecSum (text : String) : Nat :=
  let parts := text.data.partition isKoreanChar
  let koreanChars := parts.1.length
  let otherChars := parts.2.length
  (8 * koreanChars + 5 * otherChars + 19) / 20

/-- Modelled from the amended claim for C5: partition the text into
dense-script and other characters, round each contribution up
separately, and sum. -/
def estimateTokensPerPart (text : String) : Nat :=
  let parts := text.data.partition isKoreanChar
  let koreanChars := parts.1.length
  let otherChars := parts.2.length
  (2 * koreanChars + 4) / 5 + (otherChars + 3) / 4

/-! ### Rate limiter (rate-limiter.ts)

The in-memory `Map` store is modelled as a function from keys to
optional entries; `Date.now()` is the explicit `now` argument (one value
per request). The periodic `cleanup` sweep only deletes entries that
`get` already treats as absent, so it is not modelled separately.
-/

structure RateLimitEntry where
  count : Nat
  resetTime : Nat
  firstRequest : Nat
deriving DecidableEq

def RateStore : Type := String → Option RateLimitEntry

/-- `MemoryStore.get`: an entry whose window has expired (`now >
resetTime`) is deleted and reported absent. -/
def storeGet (store : RateStore) (key : String) (now : Nat) :
    Option RateLimitEntry :=
  match store key with
  | none => none
  | some entry => if now > entry.resetTime then none else some entry

/-- `MemoryStore.set`. -/
def storeSet (store : RateStore) (key : String) (entry : RateLimitEntry) :
    RateStore :=
  fun k => if k = key then some entry else store k

/-- `MemoryStore.increment`: first request (or expired window) starts a
fresh entry with `count = 1` and `resetTime = now + windowMs`; otherwise
the count is incremented in place. -/
def storeIncrement (store : RateStore) (key : String) (windowMs now : Nat) :
    RateLimitEntry × RateStore :=
  match storeGet store key now with
  | none =>
    let newEntry : RateLimitEntry :=
      { count := 1, resetTime := now + windowMs, firstRequest := now }
    (newEntry, storeSet store key newEntry)
  | some existing =>
    if now > existing.resetTime then
      let newEntry : RateLimitEntry :=
        { count := 1, resetTime := now + windowMs, firstRequest := now }
      (newEntry, storeSet store key newEntry)
    else
      let entry : RateLimitEntry :=
        { count := existing.count + 1, resetTime := existing.resetTime,
          firstRequest := existing.firstRequest }
      (entry, storeSet store key entry)

structure RateLimitConfig where
  windowMs : Nat
  maxRequests : Nat
  keyGen : String → String
  skipSuccessfulRequests : Bool
  skipFailedRequests : Bool
  standardHeaders : Bool

structure RateLimitResult where
  allowed : Bool
  limit : Nat
  remaining : Nat
  reset : Nat
  retryAfter : Option Nat
deriving DecidableEq

/-- The three default policy configurations built by the
`RateLimiter` constructor. -/
def defaultConfig : RateLimitConfig :=
  { windowMs := 15 * 60 * 1000, maxRequests := 100,
    keyGen := fun identifier => "ratelimit:" ++ identifier,
    skipSuccessfulRequests := false, skipFailedRequests := false,
    standardHeaders := true }

def strictConfig : RateLimitConfig :=
  { windowMs := 60 * 1000, maxRequests := 10,
    keyGen := fun identifier => "ratelimit:strict:" ++ identifier,
    skipSuccessfulRequests := false, skipFailedRequests := false,
    standardHeaders := true }

def burstConfig : RateLimitConfig :=
  { windowMs := 60 * 1000, maxRequests := 5,
    keyGen := fun identifier => "ratelimit:burst:" ++ identifier,
    skipSuccessfulRequests := false, skipFailedRequests := true,
    standardHeaders := true }

/-- `RateLimiter.checkLimit` for one named policy: increment the key's
entry, then decide; `Math.ceil((reset - now) / 1000)` on naturals is
`(reset - now + 999) / 1000`. -/
def checkLimit (store : RateStore) (config : RateLimitConfig)
    (identifier : String) (now : Nat) : RateLimitResult × RateStore :=
  let key := config.keyGen identifier
  let (entry, store') := storeIncrement store key config.windowMs now
  let allowed := decide (entry.count ≤ config.maxRequests)
  let remaining := config.maxRequests - entry.count
  let retryAfter :=
    if allowed then none else some ((entry.resetTime - now + 999) / 1000)
  ({ allowed := allowed, limit := config.maxRequests, remaining := remaining,
     reset := entry.resetTime, retryAfter := retryAfter }, store')

/-! ### Checklist parsing (checklist-loader.ts)

Lines come from `content.split("\n")`; each is trimmed. `line.trim()`
and the regex class `\s` are modelled by `Char.isWhitespace` (the
claims only involve ASCII whitespace, where the two agree). Splitting
and trimming are implemented structurally on the character list.
-/

/-- `content.split("\n")` at the character level: a trailing newline
yields a trailing empty line, the empty text yields one empty line. -/
def splitOnNl : List Char → List (List Char)
  | [] => [[]]
  | c :: rest =>
    match splitOnNl rest with
    | [] => [[]]
    | first :: others =>
      if c = '\n' then [] :: first :: others else (c :: first) :: others

/-- `line.trim()`: drop leading and trailing whitespace. -/
def trimChars (l : List Char) : List Char :=
  ((l.dropWhile Char.isWhitespace).reverse.dropWhile Char.isWhitespace).reverse

structure ChecklistItem where
  category : String
  items : List String
deriving DecidableEq

/-- The regex test `^#{2,3}\s+` on a trimmed line: a run of exactly two
or three `#` followed by a whitespace character (with backtracking,
`##` followed by a third `#` requires the fourth character to be
whitespace). -/
def isCategoryHeader : List Char → Bool
  | c1 :: c2 :: c3 :: c4 :: _ =>
    c1 == '#' && c2 == '#' &&
      (if c3 == '#' then c4.isWhitespace else c3.isWhitespace)
  | [c1, c2, c3] => c1 == '#' && c2 == '#' && c3.isWhitespace
  | _ => false

/-- `replace(/^#+\s+/, "")` on a header line: strip the leading `#` run
and the following whitespace run. -/
def stripHeaderChars (t : List Char) : List Char :=
  (t.dropWhile (fun c => c == '#')).dropWhile Char.isWhitespace

/-- The match of `^-\s+\[\s+\]\s+` : `-`, whitespace run, `[`,
whitespace run, `]`, whitespace run; returns the rest on a match. -/
def matchItemTag : List Char → Option (List Char)
  | '-' :: c1 :: rest =>
    if c1.isWhitespace then
      match rest.dropWhile Char.isWhitespace with
      | '[' :: c2 :: rest2 =>
        if c2.isWhitespace then
          match rest2.dropWhile Char.isWhitespace with
          | ']' :: c3 :: rest3 =>
            if c3.isWhitespace then some (rest3.dropWhile Char.isWhitespace)
            else none
          | _ => none
        else none
      | _ => none
    else none
  | _ => none

/-- `replace(/^-\s+\[\s+\]\s+/, "")`: strip the item tag when the regex
matches, otherwise leave the line unchanged. -/
def stripItemTag (t : List Char) : List Char :=
  (matchItemTag t).getD t

structure ParseState where
  currentCategory : String
  currentItems : List String
  acc : List ChecklistItem
deriving DecidableEq

/-- One iteration of the `parseMarkdownChecklist` loop body
(`trimmedLine.startsWith` tests are `listIsPre` on the literal
prefixes `"# "` and `"- [ ]"`). -/
def parseStep (st : ParseState) (line : List Char) : ParseState :=
  let t := trimChars line
  if t = [] || listIsPre ['#', ' '] t then st
  else if isCategoryHeader t then
    let acc' :=
      if st.currentCategory ≠ "" ∧ st.currentItems ≠ [] then
        st.acc ++ [{ category := st.currentCategory, items := st.currentItems }]
      else st.acc
    { currentCategory := String.mk (stripHeaderChars t),
      currentItems := [], acc := acc' }
  else if listIsPre ['-', ' ', '[', ' ', ']'] t then
    { st with currentItems := st.currentItems ++ [String.mk (stripItemTag t)] }
  else st

/-- `ChecklistLoader.parseMarkdownChecklist`. -/
def parseMarkdownChecklist (content : String) : List ChecklistItem :=
  let final := (splitOnNl content.data).foldl parseStep
    { currentCategory := "", currentItems := [], acc := [] }
  if final.currentCategory ≠ "" ∧ final.currentItems ≠ [] then
    final.acc ++ [{ category := final.currentCategory, items := final.currentItems }]
  else final.acc

/-! ### Request handler (POST /api/prompt, src/app/api/.../route.ts)

The handler's external collaborators are fields of `HandlerEnv`:
the composite admission decision (`checkMultipleLimits`), the zod parse
of the body (`none` = schema/bounds failure), the rule-pack load
(`none` = unknown format) and the external model call. The `Bool`
returned alongside the outcome records whether the external model call
was made.
-/

structure UserOptions where
  includeWarnings : Bool
  strictMode : Bool
  customTone : Option String
deriving DecidableEq

structure UserInput where
  topic : String
  format : Format
  level : ValidationLevel
  context : Option String
  tone : Option String
  mode : Option String
  additionalRequirements : Option (List String)
  options : Option UserOptions

/-- The `validation` block of a successful response: the route's
checklist entries (each passed item wrapped as one `general` category)
are modelled by the list of passed item descriptions. -/
structure ResponseValidation where
  passed : Bool
  score : Nat
  checklist : List String
  warnings : List String
  suggestions : Option (List String)
deriving DecidableEq

inductive ApiOutcome where
  | rateLimited
  | invalidInput
  | rulepackNotFound
  | tokenLimitExceeded (tokenCount : Nat) (limit : Nat) (suggestions : List String)
  | success (prompt : String) (validation : ResponseValidation)
deriving DecidableEq

structure HandlerEnv where
  rateAllowed : Bool
  parsedInput : Option UserInput
  rulepackFor : Option Rulepack
  llm : String → String → String

/-- The route's `validation` block when the quality gate ran. -/
def buildResponseValidation (vr : ValidatePromptResult) : ResponseValidation :=
  { passed := vr.validation.isValid && decide (vr.checklist.score ≥ 80)
    score := vr.overallScore
    checklist := vr.checklist.passed
    warnings := vr.validation.warnings ++
      (if vr.checklist.score < 80 then ["일부 체크리스트 항목이 통과하지 못했습니다."] else [])
    suggestions :=
      if vr.validation.errors ≠ [] then some ["내용을 검토하고 수정해보세요."] else none }

/-- The system-prompt configuration the handler passes to the assembly
engine (step 4 of the route). -/
def handlerSystemPrompt (userInput : UserInput) (rulepack : Rulepack) : String :=
  generateSystemPrompt
    { rulepack := rulepack, format := userInput.format,
      level := userInput.level,
      tone := userInput.tone.getD "public_official_v1",
      mode := userInput.mode,
      additionalRequirements := userInput.additionalRequirements.getD [],
      strictMode :=
        match userInput.options with
        | some o => o.strictMode
        | none => false }

/-- The user-prompt request the handler passes to the assembly engine
(step 4 of the route; empty additional-requirement lists are not
spread in). -/
def handlerUserPrompt (userInput : UserInput) : String :=
  generateUserPrompt
    { format := userInput.format, level := userInput.level,
      topic := userInput.topic, context := userInput.context,
      tone := userInput.tone, mode := userInput.mode,
      additionalRequirements :=
        match userInput.additionalRequirements with
        | some reqs => if reqs.length > 0 then some reqs else none
        | none => none }

/-- The POST handler pipeline: admission → input validation → rule-pack
lookup → prompt assembly → token-budget pre-check → external call →
optional quality-gate validation. The second component records whether
the external model call was made. -/
def handlePrompt (env : HandlerEnv) : ApiOutcome × Bool :=
  if !env.rateAllowed then (.rateLimited, false)
  else
    match env.parsedInput with
    | none => (.invalidInput, false)
    | some userInput =>
      match env.rulepackFor with
      | none => (.rulepackNotFound, false)
      | some rulepack =>
        let systemPrompt := handlerSystemPrompt userInput rulepack
        let userPrompt := handlerUserPrompt userInput
        let tokenResult :=
          checkTokenLimits systemPrompt userPrompt userInput.format userInput.level
        if !tokenResult.allowed then
          (.tokenLimitExceeded tokenResult.usage.promptTokens tokenResult.limit
            tokenResult.suggestions, false)
        else
          let content := env.llm systemPrompt userPrompt
          let validationBlock :=
            if (match userInput.options with
                | some o => o.includeWarnings
                | none => true) then
              buildResponseValidation
                (validatePrompt content userInput.format userInput.level)
            else
              { passed := true, score := 100, checklist := [],
                warnings := [], suggestions := none }
          (.success content validationBlock, true)

/-- A sequence of `checkLimit` calls for one policy and identity at the
given times, threading the store (models consecutive requests hitting
the admission layer). -/
def runRequests (config : RateLimitConfig) (identifier : String) :
    RateStore → List Nat → List RateLimitResult × RateStore
  | store, [] => ([], store)
  | store, t :: ts =>
    let (r, store') := checkLimit store config identifier t
    let (rs, store'') := runRequests config identifier store' ts
    (r :: rs, store'')

/-- The C7 end-to-end fixture rule-pack: required sections
`[headline, subhead, lede, body, quote, contact]`, arbitrary dos,
donts, compliance rules and modes. -/
def c7Rulepack (id tone : String) (dos donts compliance : List String)
    (modes : List (String × Mode)) : Rulepack :=
  { id := id,
    requiredSections :=
      ["headline", "subhead", "lede", "body", "quote", "contact"],
    toneDefault := tone, dos := dos, donts := donts,
    complianceRules := compliance, modes := modes }

/-- The C7 system-prompt configuration: `press_release`, `intermediate`,
no mode, no extra requirements, strict mode off. -/
def c7Config (id tone : String) (dos donts compliance : List String)
    (modes : List (String × Mode)) : SystemPromptConfig :=
  { rulepack := c7Rulepack id tone dos donts compliance modes,
    format := .press_release, level := .intermediate,
    tone := "public_official_v1", mode := none,
    additionalRequirements := [], strictMode := false }

/-- The C7 user-prompt request for the fixture topic. -/
def c7Request : PromptRequest :=
  { format := .press_release, level := .intermediate,
    topic := "청년 창업 지원 정책 발표", context := none, tone := none,
    mode := none, additionalRequirements := none }

/-! ## Theorems -/

/-! ### Substring machinery -/

theorem listIsPre_iff (n : List Char) : ∀ h : List Char,
    listIsPre n h = true ↔ ∃ v, n ++ v = h := by
  induction n with
  | nil => intro h; simp [listIsPre]
  | cons a as ih =>
    intro h
    cases h with
    | nil => simp [listIsPre]
    | cons b bs =>
      simp only [listIsPre, Bool.and_eq_true, beq_iff_eq, ih, List.cons_append,
        List.cons.injEq]
      constructor
      · rintro ⟨rfl, v, rfl⟩; exact ⟨v, rfl, rfl⟩
      · rintro ⟨v, rfl, rfl⟩; exact ⟨rfl, v, rfl⟩

theorem listIsSub_iff (n : List Char) : ∀ h : List Char,
    listIsSub n h = true ↔ ∃ u v, u ++ n ++ v = h := by
  intro h
  induction h with
  | nil =>
    simp only [listIsSub, List.isEmpty_iff]
    constructor
    · rintro rfl; exact ⟨[], [], rfl⟩
    · rintro ⟨u, v, hv⟩
      rcases List.append_eq_nil.mp hv with ⟨hu, hv2⟩
      exact (List.append_eq_nil.mp hu).2
  | cons c hs ih =>
    simp only [listIsSub, Bool.or_eq_true, listIsPre_iff, ih]
    constructor
    · rintro (⟨v, hv⟩ | ⟨u, v, hv⟩)
      · exact ⟨[], v, by simpa using hv⟩
      · exact ⟨c :: u, v, by simp [← hv]⟩
    · rintro ⟨u, v, hv⟩
      cases u with
      | nil => exact Or.inl ⟨v, by simpa using hv⟩
      | cons x xs =>
        rcases List.cons.injEq x (xs ++ n ++ v) c hs ▸ hv with h
        simp only [List.cons_append, List.cons.injEq] at hv
        exact Or.inr ⟨xs, v, hv.2⟩

theorem listIsSub_refl (n : List Char) : listIsSub n n = true :=
  (listIsSub_iff n n).mpr ⟨[], [], by simp⟩

theorem listIsSub_append_left {n a : List Char} (b : List Char)
    (h : listIsSub n a = true) : listIsSub n (a ++ b) = true := by
  rcases (listIsSub_iff n a).mp h with ⟨u, v, rfl⟩
  exact (listIsSub_iff n _).mpr ⟨u, v ++ b, by simp⟩

theorem listIsSub_append_right {n b : List Char} (a : List Char)
    (h : listIsSub n b = true) : listIsSub n (a ++ b) = true := by
  rcases (listIsSub_iff n b).mp h with ⟨u, v, rfl⟩
  exact (listIsSub_iff n _).mpr ⟨a ++ u, v, by simp⟩

theorem listIsSub_trans {n m h : List Char} (h1 : listIsSub n m = true)
    (h2 : listIsSub m h = true) : listIsSub n h = true := by
  rcases (listIsSub_iff n m).mp h1 with ⟨u1, v1, rfl⟩
  rcases (listIsSub_iff _ h).mp h2 with ⟨u2, v2, rfl⟩
  exact (listIsSub_iff n _).mpr ⟨u2 ++ u1, v1 ++ v2, by simp⟩

theorem listIsSub_map (f : Char → Char) {n h : List Char}
    (hs : listIsSub n h = true) : listIsSub (n.map f) (h.map f) = true := by
  rcases (listIsSub_iff n h).mp hs with ⟨u, v, rfl⟩
  exact (listIsSub_iff _ _).mpr ⟨u.map f, v.map f, by simp⟩

theorem strContains_append_left {a n : String} (b : String)
    (h : strContains a n = true) : strContains (a ++ b) n = true := by
  unfold strContains at *
  rw [String.data_append]
  exact listIsSub_append_left _ h

theorem strContains_append_right {b n : String} (a : String)
    (h : strContains b n = true) : strContains (a ++ b) n = true := by
  unfold strContains at *
  rw [String.data_append]
  exact listIsSub_append_right _ h

theorem strContains_self (n : String) : strContains n n = true :=
  listIsSub_refl n.data

/-- An element of a joined list is contained in the join. -/
theorem listIsSub_joinSep (sep : String) :
    ∀ (l : List String) (s : String), s ∈ l →
      listIsSub s.data (joinSep sep l).data = true := by
  intro l
  induction l with
  | nil => intro s h; cases h
  | cons x xs ih =>
    intro s h
    cases xs with
    | nil =>
      rcases List.mem_singleton.mp h with rfl
      exact listIsSub_refl s.data
    | cons y ys =>
      rcases List.mem_cons.mp h with rfl | hmem
      · show listIsSub s.data (s ++ sep ++ joinSep sep (y :: ys)).data = true
        rw [String.data_append, String.data_append]
        exact listIsSub_append_left _ (listIsSub_append_left _ (listIsSub_refl _))
      · show listIsSub s.data (x ++ sep ++ joinSep sep (y :: ys)).data = true
        rw [String.data_append]
        exact listIsSub_append_right _ (ih s hmem)

/-- Anything contained in an element of a joined list is contained in
the join. -/
theorem strContains_joinSep {l : List String} {s n : String} (sep : String)
    (hmem : s ∈ l) (h : strContains s n = true) :
    strContains (joinSep sep l) n = true :=
  listIsSub_trans h (listIsSub_joinSep sep l s hmem)

/-! ### Quality-gate validator: structure lemmas -/

theorem validatePrompt_isValid (t : String) (f : Format) (l : ValidationLevel) :
    (validatePrompt t f l).validation.isValid =
      (roleCheck t && (foundMetaInstructions t).isEmpty) := by
  unfold validatePrompt
  cases roleCheck t <;> cases foundMetaInstructions t <;> simp

theorem validatePrompt_score (t : String) (f : Format) (l : ValidationLevel) :
    (validatePrompt t f l).checklist.score =
      roundPct (validatePrompt t f l).checklist.passedChecks 7 := rfl

theorem validatePrompt_overallScore (t : String) (f : Format)
    (l : ValidationLevel) :
    (validatePrompt t f l).overallScore =
      if (roleCheck t && (foundMetaInstructions t).isEmpty) then
        (validatePrompt t f l).checklist.score
      else min (validatePrompt t f l).checklist.score 60 := by
  unfold validatePrompt
  cases roleCheck t <;> cases foundMetaInstructions t <;> simp

theorem validatePrompt_passedChecks_le (t : String) (f : Format)
    (l : ValidationLevel) : (validatePrompt t f l).checklist.passedChecks ≤ 7 := by
  unfold validatePrompt
  cases roleCheck t <;> cases foundMetaInstructions t <;>
    cases customizationCheck t <;> cases formatCheck t f <;>
    cases structureCheck t <;> cases instructionCheck t <;>
    cases actionableCheck t <;> simp

/-- A text that contains a meta-instruction phrase verbatim makes the
lower-cased check #2 find it (character-wise lower-casing preserves the
occurrence). -/
theorem foundMetaInstructions_ne_nil {t p : String}
    (hp : p ∈ metaInstructions) (hc : strContains t p = true) :
    foundMetaInstructions t ≠ [] := by
  have hsub : strContains (lowerStr t) (lowerStr p) = true := by
    show listIsSub (p.data.map Char.toLower) (t.data.map Char.toLower) = true
    exact listIsSub_map Char.toLower hc
  have hmem : p ∈ foundMetaInstructions t :=
    List.mem_filter.mpr ⟨hp, hsub⟩
  exact List.ne_nil_of_mem hmem

/-- C1: Hard-error dominance of the quality gate. If the generated text
contains any phrase of the fixed meta-instruction leak list (check #2
fails) or lacks a role definition (check #1 fails), the validator yields
`isValid = false` and overall score `min(scorecard score, 60) ≤ 60`;
if checks #1 and #2 both pass (failures of #3-#7 only), `isValid = true`
and the overall score is `round(passedChecks / 7 * 100)`. -/
theorem validator_hard_error_dominance (promptText : String) (format : Format)
    (level : ValidationLevel) :
    (((∃ p ∈ metaInstructions, strContains promptText p = true) ∨
        roleCheck promptText = false) →
      (validatePrompt promptText format level).validation.isValid = false ∧
      (validatePrompt promptText format level).overallScore =
        min (validatePrompt promptText format level).checklist.score 60 ∧
      (validatePrompt promptText format level).overallScore ≤ 60) ∧
    (roleCheck promptText = true → foundMetaInstructions promptText = [] →
      (validatePrompt promptText format level).validation.isValid = true ∧
      (validatePrompt promptText format level).overallScore =
        roundPct (validatePrompt promptText format level).checklist.passedChecks
          7) := by
  constructor
  · intro h
    have hcond : (roleCheck promptText &&
        (foundMetaInstructions promptText).isEmpty) = false := by
      rcases h with ⟨p, hp, hc⟩ | hrole
      · have hne := foundMetaInstructions_ne_nil hp hc
        cases hF : foundMetaInstructions promptText with
        | nil => exact absurd hF hne
        | cons a as => simp [hF]
      · simp [hrole]
    refine ⟨?_, ?_, ?_⟩
    · rw [validatePrompt_isValid, hcond]
    · rw [validatePrompt_overallScore, hcond]; simp
    · rw [validatePrompt_overallScore, hcond]; simp
  · intro hrole hF
    have hcond : (roleCheck promptText &&
        (foundMetaInstructions promptText).isEmpty) = true := by
      simp [hrole, hF]
    refine ⟨?_, ?_⟩
    · rw [validatePrompt_isValid, hcond]
    · rw [validatePrompt_overallScore, hcond]
      simp [validatePrompt_score]

/-- C1 witness: the concrete text `"프롬프트를 출력하십시오"` contains the leak
phrase `"프롬프트를 출력"`, so the validator rejects it with a score capped
at 60. -/
theorem validator_hard_error_dominance_witness :
    (validatePrompt "프롬프트를 출력하십시오" .press_release .basic).validation.isValid
        = false ∧
      (validatePrompt "프롬프트를 출력하십시오" .press_release .basic).overallScore
        ≤ 60 ∧
      roleCheck "당신은 전문가입니다. 보도자료 작성해주세요." = true ∧
      foundMetaInstructions "당신은 전문가입니다. 보도자료 작성해주세요." = [] ∧
      (validatePrompt "당신은 전문가입니다. 보도자료 작성해주세요." .press_release
          .basic).validation.isValid = true := by
  have h1 := validator_hard_error_dominance "프롬프트를 출력하십시오"
    .press_release .basic
  have h2 := validator_hard_error_dominance "당신은 전문가입니다. 보도자료 작성해주세요."
    .press_release .basic
  have ha := h1.1 (Or.inl ⟨"프롬프트를 출력", by decide, by decide⟩)
  have hrole : roleCheck "당신은 전문가입니다. 보도자료 작성해주세요." = true := by decide
  have hmeta : foundMetaInstructions "당신은 전문가입니다. 보도자료 작성해주세요." = [] := by
    decide
  exact ⟨ha.1, ha.2.2, hrole, hmeta, (h2.2 hrole hmeta).1⟩

/-! ### Token estimator (C5) -/

theorem length_filter_not (p : Char → Bool) (l : List Char) :
    (l.filter (not ∘ p)).length = l.length - (l.filter p).length := by
  induction l with
  | nil => rfl
  | cons c cs ih =>
    have hle : (cs.filter p).length ≤ cs.length := List.length_filter_le p cs
    by_cases h : p c = true
    · simp only [List.filter_cons, Function.comp, h, if_true, if_false,
        Bool.not_true, Bool.false_eq_true, List.length_cons, ih]
      omega
    · simp only [List.filter_cons, Function.comp, h, if_true, if_false,
        Bool.not_false, Bool.false_eq_true, List.length_cons, ih]
      omega

/-- C5 counterexample: on the two-character text `"가a"` (one Korean
character, one Latin character) the source estimator rounds each
contribution up separately, giving `⌈1/2.5⌉ + ⌈1/4⌉ = 2`, while the
claimed "sum the two contributions and round up" gives
`⌈1/2.5 + 1/4⌉ = ⌈0.65⌉ = 1`. -/
theorem estimateTokens_not_sum_then_round :
    estimateTokens "가a" = 2 ∧ estimateTokensSpecSum "가a" = 1 ∧
      estimateTokens "가a" ≠ estimateTokensSpecSum "가a" := by
  decide

/-- C5 (amended): the estimator partitions the text into Korean-range
characters and all other characters, counts the first at 1 token per 2.5
characters and the second at 1 token per 4 characters, rounds each
contribution up separately, and sums; the empty string estimates to 0. -/
theorem estimateTokens_partition :
    (∀ text : String, estimateTokens text = estimateTokensPerPart text) ∧
      estimateTokens "" = 0 := by
  refine ⟨?_, rfl⟩
  intro text
  unfold estimateTokens estimateTokensPerPart
  rw [List.partition_eq_filter_filter]
  by_cases h : text = ""
  · subst h; rfl
  · simp only [h, if_false]
    rw [length_filter_not]

/-! ### Token-budget governor (C2, C4) -/

theorem checkTokenLimits_allowed (s u : String) (f : Format)
    (l : ValidationLevel) :
    (checkTokenLimits s u f l).allowed =
      decide (estimateTokens (s ++ u) ≤
        tokenGuardLimits l - tokenGuardLimits l / 5) := rfl

theorem checkTokenLimits_promptTokens (s u : String) (f : Format)
    (l : ValidationLevel) :
    (checkTokenLimits s u f l).usage.promptTokens =
      estimateTokens (s ++ u) := rfl

theorem checkTokenLimits_limit (s u : String) (f : Format)
    (l : ValidationLevel) :
    (checkTokenLimits s u f l).limit = tokenGuardLimits l := rfl

theorem checkTokenLimits_suggestions_of_rejected {s u : String} {f : Format}
    {l : ValidationLevel}
    (h : tokenGuardLimits l - tokenGuardLimits l / 5 < estimateTokens (s ++ u)) :
    (checkTokenLimits s u f l).suggestions =
      ["주제를 더 간결하게 작성해보세요", "배경 정보를 줄여보세요"] ++
        (if l ≠ .basic then
          [levelKey (lowerLevelOf l) ++ " 레벨로 변경해보세요"]
        else []) := by
  have hdec : decide (estimateTokens (s ++ u) ≤
      tokenGuardLimits l - tokenGuardLimits l / 5) = false :=
    decide_eq_false (Nat.not_le.mpr h)
  simp only [checkTokenLimits, hdec, Bool.not_false, if_true]


/-- C2 (amended): with ceilings basic 300 / intermediate 600 / advanced
900, the pre-call check computes the allowance `ceiling - ⌊ceiling/5⌋`
(240/480/720), rejects exactly when the estimate of the combined
instruction+task payload exceeds the allowance — the rejection carrying
the estimate, the level ceiling and remediation suggestions (shorten
the topic, shorten the context, and, for levels other than basic, drop
to a lower level) — and an in-budget payload is handed to the external
call unmodified, never truncated. -/
theorem token_guard_precall_check (systemPrompt userPrompt : String)
    (format : Format) (level : ValidationLevel) :
    (tokenGuardLimits .basic = 300 ∧ tokenGuardLimits .intermediate = 600 ∧
      tokenGuardLimits .advanced = 900) ∧
    (tokenGuardLimits .basic - tokenGuardLimits .basic / 5 = 240 ∧
      tokenGuardLimits .intermediate - tokenGuardLimits .intermediate / 5 = 480 ∧
      tokenGuardLimits .advanced - tokenGuardLimits .advanced / 5 = 720) ∧
    ((checkTokenLimits systemPrompt userPrompt format level).allowed = false ↔
      tokenGuardLimits level - tokenGuardLimits level / 5 <
        estimateTokens (systemPrompt ++ userPrompt)) ∧
    ((checkTokenLimits systemPrompt userPrompt format level).allowed = false →
      (checkTokenLimits systemPrompt userPrompt format level).usage.promptTokens
          = estimateTokens (systemPrompt ++ userPrompt) ∧
      (checkTokenLimits systemPrompt userPrompt format level).limit =
          tokenGuardLimits level ∧
      "주제를 더 간결하게 작성해보세요" ∈
          (checkTokenLimits systemPrompt userPrompt format level).suggestions ∧
      "배경 정보를 줄여보세요" ∈
          (checkTokenLimits systemPrompt userPrompt format level).suggestions ∧
      (level ≠ .basic →
        levelKey (lowerLevelOf level) ++ " 레벨로 변경해보세요" ∈
          (checkTokenLimits systemPrompt userPrompt format level).suggestions)) ∧
    (∀ (env : HandlerEnv) (userInput : UserInput) (rulepack : Rulepack),
      env.rateAllowed = true → env.parsedInput = some userInput →
      env.rulepackFor = some rulepack →
      (checkTokenLimits (handlerSystemPrompt userInput rulepack)
        (handlerUserPrompt userInput) userInput.format
        userInput.level).allowed = true →
      ∃ vb, handlePrompt env =
        (.success (env.llm (handlerSystemPrompt userInput rulepack)
          (handlerUserPrompt userInput)) vb, true)) := by
  refine ⟨⟨rfl, rfl, rfl⟩, ⟨rfl, rfl, rfl⟩, ?_, ?_, ?_⟩
  · rw [checkTokenLimits_allowed]
    rcases Nat.lt_or_ge (tokenGuardLimits level - tokenGuardLimits level / 5)
      (estimateTokens (systemPrompt ++ userPrompt)) with h | h
    · simp [decide_eq_false (Nat.not_le.mpr h), h]
    · simp [decide_eq_true h, Nat.not_lt.mpr h]
  · intro hrej
    have h : tokenGuardLimits level - tokenGuardLimits level / 5 <
        estimateTokens (systemPrompt ++ userPrompt) := by
      rw [checkTokenLimits_allowed] at hrej
      exact Nat.not_le.mp (of_decide_eq_false hrej)
    rw [checkTokenLimits_suggestions_of_rejected h]
    refine ⟨rfl, rfl, by simp, by simp, ?_⟩
    intro hne
    rw [if_pos hne]
    simp
  · intro env userInput rulepack hrate hparse hrp hallow
    simp only [handlePrompt, hrate, hparse, hrp, hallow, Bool.not_true,
      Bool.false_eq_true, if_false]
    exact ⟨_, rfl⟩

/-- Evaluation helper: a nonempty all-`'a'` string estimates to
`⌈n/4⌉` tokens (no Korean characters). -/
theorem estimateTokens_replicate_a (n : Nat) (h : 0 < n) :
    estimateTokens (String.mk (List.replicate n 'a')) = (n + 3) / 4 := by
  have hfil : ∀ m : Nat, List.filter isKoreanChar (List.replicate m 'a') = [] := by
    intro m
    induction m with
    | zero => rfl
    | succ k ih =>
      rw [List.replicate_succ, List.filter_cons]
      simp [ih, show isKoreanChar 'a' = false from rfl]
  have hne : String.mk (List.replicate n 'a') ≠ "" := by
    intro hcon
    have hdata : List.replicate n 'a' = ([] : List Char) :=
      congrArg String.data hcon
    rw [List.replicate_eq_nil_iff] at hdata
    omega
  unfold estimateTokens
  rw [if_neg hne]
  simp [hfil n]

/-- Evaluation helper: the combined payload of an all-`'a'` system
prompt and an empty user prompt. -/
theorem estimateTokens_replicate_append_empty (n : Nat) (h : 0 < n) :
    estimateTokens (String.mk (List.replicate n 'a') ++ "") = (n + 3) / 4 := by
  rw [show String.mk (List.replicate n 'a') ++ "" =
    String.mk (List.replicate n 'a') from by simp]
  exact estimateTokens_replicate_a n h

/-- C2 counterexample: at `basic` level an over-budget payload (1000
Latin characters, estimated 250 > 240) is rejected, but the suggestion
list contains only the shorten-topic and shorten-context suggestions —
no drop-to-a-lower-level suggestion exists for `basic`. -/
theorem token_guard_no_lower_level_suggestion_at_basic :
    (checkTokenLimits (String.mk (List.replicate 1000 'a')) ""
        .press_release .basic).allowed = false ∧
    (checkTokenLimits (String.mk (List.replicate 1000 'a')) ""
        .press_release .basic).suggestions =
      ["주제를 더 간결하게 작성해보세요", "배경 정보를 줄여보세요"] ∧
    ("basic 레벨로 변경해보세요" ∉
      (checkTokenLimits (String.mk (List.replicate 1000 'a')) ""
        .press_release .basic).suggestions) ∧
    ("intermediate 레벨로 변경해보세요" ∉
      (checkTokenLimits (String.mk (List.replicate 1000 'a')) ""
        .press_release .basic).suggestions) := by
  have hest := estimateTokens_replicate_append_empty 1000 (by norm_num)
  have hlt : tokenGuardLimits .basic - tokenGuardLimits .basic / 5 <
      estimateTokens (String.mk (List.replicate 1000 'a') ++ "") := by
    rw [hest]; decide
  have hsugg := checkTokenLimits_suggestions_of_rejected
    (f := Format.press_release) hlt
  rw [if_neg (by simp), List.append_nil] at hsugg
  refine ⟨?_, ?_, ?_, ?_⟩
  · rw [checkTokenLimits_allowed, hest]; decide
  · rw [hsugg]
  · rw [hsugg]; decide
  · rw [hsugg]; decide

/-- C2 witness: a 1000-character Latin payload at `basic` level is
rejected with estimate 250 and ceiling 300 and the two shorten
suggestions; a 3000-character payload at `advanced` level additionally
gets the drop-to-intermediate suggestion. -/
theorem token_guard_precall_check_witness :
    (checkTokenLimits (String.mk (List.replicate 1000 'a')) ""
        .press_release .basic).allowed = false ∧
    (checkTokenLimits (String.mk (List.replicate 1000 'a')) ""
        .press_release .basic).usage.promptTokens = 250 ∧
    (checkTokenLimits (String.mk (List.replicate 1000 'a')) ""
        .press_release .basic).limit = 300 ∧
    "주제를 더 간결하게 작성해보세요" ∈
      (checkTokenLimits (String.mk (List.replicate 1000 'a')) ""
        .press_release .basic).suggestions ∧
    "intermediate 레벨로 변경해보세요" ∈
      (checkTokenLimits (String.mk (List.replicate 3000 'a')) ""
        .press_release .advanced).suggestions := by
  have hb := token_guard_precall_check (String.mk (List.replicate 1000 'a')) ""
    .press_release .basic
  have ha := token_guard_precall_check (String.mk (List.replicate 3000 'a')) ""
    .press_release .advanced
  have hestb := estimateTokens_replicate_append_empty 1000 (by norm_num)
  have hesta := estimateTokens_replicate_append_empty 3000 (by norm_num)
  have hrejb : (checkTokenLimits (String.mk (List.replicate 1000 'a')) ""
      .press_release .basic).allowed = false := by
    rw [checkTokenLimits_allowed, hestb]; decide
  have hreja : (checkTokenLimits (String.mk (List.replicate 3000 'a')) ""
      .press_release .advanced).allowed = false := by
    rw [checkTokenLimits_allowed, hesta]; decide
  have hcb := hb.2.2.2.1 hrejb
  have hca := ha.2.2.2.1 hreja
  refine ⟨hrejb, hcb.1.trans (by rw [hestb]), hcb.2.1, hcb.2.2.1,
    hca.2.2.2.2 (by decide)⟩

/-- C4 counterexample: payloads of 1200 and 1600 Latin characters
estimate to 300 < 400 tokens; at `basic` level (allowance 240) B is
rejected as over-budget, yet A is rejected too — so "B rejected implies
A not rejected" fails. -/
theorem token_governor_monotonicity_counterexample :
    estimateTokens (String.mk (List.replicate 1200 'a')) <
        estimateTokens (String.mk (List.replicate 1600 'a')) ∧
    (checkTokenLimits (String.mk (List.replicate 1600 'a')) ""
        .press_release .basic).allowed = false ∧
    (checkTokenLimits (String.mk (List.replicate 1200 'a')) ""
        .press_release .basic).allowed = false := by
  have h12 := estimateTokens_replicate_a 1200 (by norm_num)
  have h16 := estimateTokens_replicate_a 1600 (by norm_num)
  refine ⟨by rw [h12, h16]; decide, ?_, ?_⟩
  · rw [checkTokenLimits_allowed,
      estimateTokens_replicate_append_empty 1600 (by norm_num)]
    decide
  · rw [checkTokenLimits_allowed,
      estimateTokens_replicate_append_empty 1200 (by norm_num)]
    decide

/-- C4 (amended): rejection by the token budget is monotone in the
estimate — for payloads A, B at the same level with
`estimate(A) < estimate(B)`, if A is rejected as over-budget then B is
also rejected (equivalently, if B passes the budget then so does A);
concretely, a payload estimated at 50 tokens never trips the basic
level's 240-token allowance and a payload estimated at 250 tokens does
trip it. -/
theorem token_governor_monotonicity (format : Format)
    (level : ValidationLevel) :
    (∀ A B : String, estimateTokens A < estimateTokens B →
      (checkTokenLimits A "" format level).allowed = false →
      (checkTokenLimits B "" format level).allowed = false) ∧
    (∀ s : String, estimateTokens s = 50 →
      (checkTokenLimits s "" format .basic).allowed = true) ∧
    (∀ s : String, estimateTokens s = 250 →
      (checkTokenLimits s "" format .basic).allowed = false) := by
  have happ : ∀ s : String, s ++ "" = s := by intro s; simp
  refine ⟨?_, ?_, ?_⟩
  · intro A B hlt hA
    rw [checkTokenLimits_allowed, happ] at hA ⊢
    have hAgt : tokenGuardLimits level - tokenGuardLimits level / 5 <
        estimateTokens A := Nat.not_le.mp (of_decide_eq_false hA)
    exact decide_eq_false (Nat.not_le.mpr (Nat.lt_trans hAgt hlt))
  · intro s hs
    rw [checkTokenLimits_allowed, happ, hs]
    decide
  · intro s hs
    rw [checkTokenLimits_allowed, happ, hs]
    decide

/-- C4 witness: applying the monotonicity at concrete payloads — a
1200-character payload (estimate 300) is rejected at `basic`, hence so
is the 1600-character payload (estimate 400); a 200-character payload
(estimate 50) is accepted. -/
theorem token_governor_monotonicity_witness :
    (checkTokenLimits (String.mk (List.replicate 1600 'a')) ""
        .press_release .basic).allowed = false ∧
    (checkTokenLimits (String.mk (List.replicate 200 'a')) ""
        .press_release .basic).allowed = true ∧
    (checkTokenLimits (String.mk (List.replicate 1000 'a')) ""
        .press_release .basic).allowed = false := by
  have h := token_governor_monotonicity .press_release .basic
  have hA : (checkTokenLimits (String.mk (List.replicate 1200 'a')) ""
      .press_release .basic).allowed = false := by
    rw [checkTokenLimits_allowed,
      estimateTokens_replicate_append_empty 1200 (by norm_num)]
    decide
  have hlt : estimateTokens (String.mk (List.replicate 1200 'a')) <
      estimateTokens (String.mk (List.replicate 1600 'a')) := by
    rw [estimateTokens_replicate_a 1200 (by norm_num),
      estimateTokens_replicate_a 1600 (by norm_num)]
    decide
  refine ⟨h.1 _ _ hlt hA, ?_, ?_⟩
  · exact h.2.1 _ (by rw [estimateTokens_replicate_a 200 (by norm_num)])
  · exact h.2.2 _ (by rw [estimateTokens_replicate_a 1000 (by norm_num)])

/-! ### Rate limiter (C3, C6) -/

theorem storeSet_same (st : RateStore) (key : String) (e : RateLimitEntry) :
    storeSet st key e key = some e := by
  simp [storeSet]

theorem storeGet_none {st : RateStore} {key : String} (now : Nat)
    (h : st key = none) : storeGet st key now = none := by
  simp [storeGet, h]

theorem storeGet_active {st : RateStore} {key : String} {e : RateLimitEntry}
    {now : Nat} (h : st key = some e) (hw : now ≤ e.resetTime) :
    storeGet st key now = some e := by
  simp [storeGet, h, Nat.not_lt.mpr hw]

theorem storeGet_expired {st : RateStore} {key : String} {e : RateLimitEntry}
    {now : Nat} (h : st key = some e) (hw : e.resetTime < now) :
    storeGet st key now = none := by
  simp [storeGet, h, hw]

/-- `checkLimit` on a key with no live window: a fresh entry with
`count = 1` and `resetTime = now + windowMs`. -/
theorem checkLimit_fresh {st : RateStore} {cfg : RateLimitConfig}
    {identifier : String} {now : Nat}
    (h : storeGet st (cfg.keyGen identifier) now = none) :
    checkLimit st cfg identifier now =
      ({ allowed := decide (1 ≤ cfg.maxRequests), limit := cfg.maxRequests,
         remaining := cfg.maxRequests - 1, reset := now + cfg.windowMs,
         retryAfter :=
           if decide (1 ≤ cfg.maxRequests) then none
           else some ((now + cfg.windowMs - now + 999) / 1000) },
       storeSet st (cfg.keyGen identifier)
         { count := 1, resetTime := now + cfg.windowMs, firstRequest := now }) := by
  simp [checkLimit, storeIncrement, h]

/-- `checkLimit` on a key with a live window: the stored count is
incremented and the decision is made on the incremented count. -/
theorem checkLimit_step {st : RateStore} {cfg : RateLimitConfig}
    {identifier : String} {e : RateLimitEntry} {now : Nat}
    (h : st (cfg.keyGen identifier) = some e) (hw : now ≤ e.resetTime) :
    checkLimit st cfg identifier now =
      ({ allowed := decide (e.count + 1 ≤ cfg.maxRequests),
         limit := cfg.maxRequests,
         remaining := cfg.maxRequests - (e.count + 1), reset := e.resetTime,
         retryAfter :=
           if decide (e.count + 1 ≤ cfg.maxRequests) then none
           else some ((e.resetTime - now + 999) / 1000) },
       storeSet st (cfg.keyGen identifier)
         { count := e.count + 1, resetTime := e.resetTime,
           firstRequest := e.firstRequest }) := by
  simp [checkLimit, storeIncrement, storeGet_active h hw,
    Nat.not_lt.mpr hw]

/-- C3: fixed-window rate limiting. (a) The first request for a key
initializes `count = 1`, `resetTime = now + W`; (b) a request with
`now ≤ resetTime` increments the count; (c) a request with
`now > resetTime` reinitializes regardless of the prior count; (d) the
decision is `allowed = count ≤ N`, `remaining = N - count` (at 0 when
exhausted) and, when denied, `retryAfter = ⌈(resetTime - now)/1000⌉`;
(e) under the burst policy (N = 5, W = 60 s) five requests inside one
window are allowed with remaining 4,3,2,1,0, the sixth is denied with
remaining 0, and a request after the window elapses is allowed again
with the stored count reset to 1. -/
theorem rate_limiter_fixed_window (store : RateStore)
    (cfg : RateLimitConfig) (key identifier : String) (windowMs now : Nat)
    (e : RateLimitEntry) :
    (burstConfig.maxRequests = 5 ∧ burstConfig.windowMs = 60000) ∧
    (storeGet store key now = none →
      storeIncrement store key windowMs now =
        ({ count := 1, resetTime := now + windowMs, firstRequest := now },
         storeSet store key
          { count := 1, resetTime := now + windowMs, firstRequest := now })) ∧
    (store key = some e → now ≤ e.resetTime →
      storeIncrement store key windowMs now =
        ({ count := e.count + 1, resetTime := e.resetTime,
           firstRequest := e.firstRequest },
         storeSet store key
          { count := e.count + 1, resetTime := e.resetTime,
            firstRequest := e.firstRequest })) ∧
    (store key = some e → e.resetTime < now →
      storeIncrement store key windowMs now =
        ({ count := 1, resetTime := now + windowMs, firstRequest := now },
         storeSet store key
          { count := 1, resetTime := now + windowMs, firstRequest := now })) ∧
    ((checkLimit store cfg identifier now).1.allowed =
        decide ((storeIncrement store (cfg.keyGen identifier)
          cfg.windowMs now).1.count ≤ cfg.maxRequests) ∧
      (checkLimit store cfg identifier now).1.remaining =
        cfg.maxRequests - (storeIncrement store (cfg.keyGen identifier)
          cfg.windowMs now).1.count ∧
      ((checkLimit store cfg identifier now).1.allowed = false →
        (checkLimit store cfg identifier now).1.retryAfter =
          some (((storeIncrement store (cfg.keyGen identifier)
            cfg.windowMs now).1.resetTime - now + 999) / 1000))) ∧
    (∀ t1 t2 t3 t4 t5 t6 t7 : Nat,
      store (burstConfig.keyGen identifier) = none →
      t2 ≤ t1 + 60000 → t3 ≤ t1 + 60000 → t4 ≤ t1 + 60000 →
      t5 ≤ t1 + 60000 → t6 ≤ t1 + 60000 → t1 + 60000 < t7 →
      (runRequests burstConfig identifier store
          [t1, t2, t3, t4, t5, t6]).1 =
        [ { allowed := true, limit := 5, remaining := 4,
            reset := t1 + 60000, retryAfter := none },
          { allowed := true, limit := 5, remaining := 3,
            reset := t1 + 60000, retryAfter := none },
          { allowed := true, limit := 5, remaining := 2,
            reset := t1 + 60000, retryAfter := none },
          { allowed := true, limit := 5, remaining := 1,
            reset := t1 + 60000, retryAfter := none },
          { allowed := true, limit := 5, remaining := 0,
            reset := t1 + 60000, retryAfter := none },
          { allowed := false, limit := 5, remaining := 0,
            reset := t1 + 60000,
            retryAfter := some ((t1 + 60000 - t6 + 999) / 1000) } ] ∧
      (checkLimit (runRequests burstConfig identifier store
          [t1, t2, t3, t4, t5, t6]).2 burstConfig identifier t7).1.allowed =
        true ∧
      (checkLimit (runRequests burstConfig identifier store
          [t1, t2, t3, t4, t5, t6]).2 burstConfig identifier t7).2
          (burstConfig.keyGen identifier) =
        some { count := 1, resetTime := t7 + 60000, firstRequest := t7 }) := by
  refine ⟨⟨rfl, rfl⟩, ?_, ?_, ?_, ?_, ?_⟩
  · intro h
    simp [storeIncrement, h]
  · intro h hw
    simp [storeIncrement, storeGet_active h hw, Nat.not_lt.mpr hw]
  · intro h hw
    simp [storeIncrement, storeGet_expired h hw]
  · refine ⟨rfl, rfl, ?_⟩
    intro hfalse
    have hr : (checkLimit store cfg identifier now).1.retryAfter =
        if (checkLimit store cfg identifier now).1.allowed = true then none
        else some (((storeIncrement store (cfg.keyGen identifier)
          cfg.windowMs now).1.resetTime - now + 999) / 1000) := rfl
    rw [hr, hfalse]
    simp
  · intro t1 t2 t3 t4 t5 t6 t7 h0 hb2 hb3 hb4 hb5 hb6 hgt
    have h1 := checkLimit_fresh (storeGet_none t1 h0)
    have h2 := checkLimit_step
      (storeSet_same store (burstConfig.keyGen identifier)
        { count := 1, resetTime := t1 + burstConfig.windowMs,
          firstRequest := t1 }) hb2
    have h3 := checkLimit_step
      (storeSet_same
        (storeSet store (burstConfig.keyGen identifier)
          { count := 1, resetTime := t1 + burstConfig.windowMs,
            firstRequest := t1 })
        (burstConfig.keyGen identifier)
        { count := 2, resetTime := t1 + burstConfig.windowMs,
          firstRequest := t1 }) hb3
    have h4 := checkLimit_step
      (storeSet_same
        (storeSet
          (storeSet store (burstConfig.keyGen identifier)
            { count := 1, resetTime := t1 + burstConfig.windowMs,
              firstRequest := t1 })
          (burstConfig.keyGen identifier)
          { count := 2, resetTime := t1 + burstConfig.windowMs,
            firstRequest := t1 })
        (burstConfig.keyGen identifier)
        { count := 3, resetTime := t1 + burstConfig.windowMs,
          firstRequest := t1 }) hb4
    have h5 := checkLimit_step
      (storeSet_same
        (storeSet
          (storeSet
            (storeSet store (burstConfig.keyGen identifier)
              { count := 1, resetTime := t1 + burstConfig.windowMs,
                firstRequest := t1 })
            (burstConfig.keyGen identifier)
            { count := 2, resetTime := t1 + burstConfig.windowMs,
              firstRequest := t1 })
          (burstConfig.keyGen identifier)
          { count := 3, resetTime := t1 + burstConfig.windowMs,
            firstRequest := t1 })
        (burstConfig.keyGen identifier)
        { count := 4, resetTime := t1 + burstConfig.windowMs,
          firstRequest := t1 }) hb5
    have h6 := checkLimit_step
      (storeSet_same
        (storeSet
          (storeSet
            (storeSet
              (storeSet store (burstConfig.keyGen identifier)
                { count := 1, resetTime := t1 + burstConfig.windowMs,
                  firstRequest := t1 })
              (burstConfig.keyGen identifier)
              { count := 2, resetTime := t1 + burstConfig.windowMs,
                firstRequest := t1 })
            (burstConfig.keyGen identifier)
            { count := 3, resetTime := t1 + burstConfig.windowMs,
              firstRequest := t1 })
          (burstConfig.keyGen identifier)
          { count := 4, resetTime := t1 + burstConfig.windowMs,
            firstRequest := t1 })
        (burstConfig.keyGen identifier)
        { count := 5, resetTime := t1 + burstConfig.windowMs,
          firstRequest := t1 }) hb6
    have h7 := checkLimit_fresh
      (storeGet_expired
        (storeSet_same
          (storeSet
            (storeSet
              (storeSet
                (storeSet
                  (storeSet store (burstConfig.keyGen identifier)
                    { count := 1, resetTime := t1 + burstConfig.windowMs,
                      firstRequest := t1 })
                  (burstConfig.keyGen identifier)
                  { count := 2, resetTime := t1 + burstConfig.windowMs,
                    firstRequest := t1 })
                (burstConfig.keyGen identifier)
                { count := 3, resetTime := t1 + burstConfig.windowMs,
                  firstRequest := t1 })
              (burstConfig.keyGen identifier)
              { count := 4, resetTime := t1 + burstConfig.windowMs,
                firstRequest := t1 })
            (burstConfig.keyGen identifier)
            { count := 5, resetTime := t1 + burstConfig.windowMs,
              firstRequest := t1 })
          (burstConfig.keyGen identifier)
          { count := 6, resetTime := t1 + burstConfig.windowMs,
            firstRequest := t1 }) hgt)
    dsimp only [runRequests]
    rw [h1]
    dsimp only []
    rw [h2]
    dsimp only []
    rw [h3]
    dsimp only []
    rw [h4]
    dsimp only []
    rw [h5]
    dsimp only []
    rw [h6]
    dsimp only []
    rw [h7]
    dsimp only []
    refine ⟨rfl, rfl, ?_⟩
    rw [storeSet_same]
    rfl

/-- C3 witness: from an empty store, six burst-policy requests at
t = 0, 10 s, ..., 50 s are allowed five times then denied, and a
seventh request at t = 60.001 s is allowed again with count reset. -/
theorem rate_limiter_fixed_window_witness :
    (runRequests burstConfig "203.0.113.7" (fun _ => none)
        [0, 10000, 20000, 30000, 40000, 50000]).1.map (fun r => r.allowed) =
      [true, true, true, true, true, false] ∧
    (checkLimit (runRequests burstConfig "203.0.113.7" (fun _ => none)
        [0, 10000, 20000, 30000, 40000, 50000]).2 burstConfig "203.0.113.7"
        60001).1.allowed = true := by
  have h := (rate_limiter_fixed_window (fun _ => none) burstConfig "k"
    "203.0.113.7" 0 0 { count := 0, resetTime := 0, firstRequest := 0 }).2.2.2.2.2
  have hs := h 0 10000 20000 30000 40000 50000 60001 rfl (by norm_num)
    (by norm_num) (by norm_num) (by norm_num) (by norm_num) (by norm_num)
  refine ⟨?_, hs.2.1⟩
  rw [hs.1]
  rfl

/-- C6: admission-layer policies. The default configuration has the
broad policy (100 requests / 15 minutes) and the burst policy
(5 requests / minute) whose `skipFailedRequests` flag is set — but the
flag is read nowhere: a burst-policy request on a live window raises
the stored count from 1 to 2 at admission time, and the request then
failing input validation (the failing input: an unparseable body from
an admitted caller) changes nothing, so the failed request stays
counted. -/
theorem burst_policy_counts_failed_requests :
    (defaultConfig.windowMs = 900000 ∧ defaultConfig.maxRequests = 100 ∧
      defaultConfig.skipFailedRequests = false) ∧
    (burstConfig.windowMs = 60000 ∧ burstConfig.maxRequests = 5 ∧
      burstConfig.skipFailedRequests = true) ∧
    (checkLimit
        (storeSet (fun _ => none) (burstConfig.keyGen "203.0.113.7")
          { count := 1, resetTime := 60000, firstRequest := 0 })
        burstConfig "203.0.113.7" 1000).2
        (burstConfig.keyGen "203.0.113.7") =
      some { count := 2, resetTime := 60000, firstRequest := 0 } ∧
    (handlePrompt
        { rateAllowed := true, parsedInput := none, rulepackFor := none,
          llm := fun _ _ => "" }).1 = .invalidInput ∧
    (handlePrompt
        { rateAllowed := true, parsedInput := none, rulepackFor := none,
          llm := fun _ _ => "" }).2 = false := by
  refine ⟨⟨rfl, rfl, rfl⟩, ⟨rfl, rfl, rfl⟩, ?_, rfl, rfl⟩
  have h := checkLimit_step
    (storeSet_same (fun _ => none) (burstConfig.keyGen "203.0.113.7")
      { count := 1, resetTime := 60000, firstRequest := 0 })
    (by norm_num : (1000:Nat) ≤ 60000)
  rw [h]
  dsimp only []
  rw [storeSet_same]

/-! ### Prompt assembly (C7) -/

/-- Containment lifts from a line of the unconditional base block to
the whole system prompt. -/
theorem generateSystemPrompt_contains_of_base {c : SystemPromptConfig}
    {b n : String} (hb : b ∈ systemPromptBase c)
    (h : strContains b n = true) :
    strContains (generateSystemPrompt c) n = true :=
  strContains_joinSep "\n"
    (List.mem_append_left _ (List.mem_append_left _
      (List.mem_append_left _ (List.mem_append_left _ hb)))) h

/-- Containment lifts from a line of the unconditional base block to
the whole user prompt. -/
theorem generateUserPrompt_contains_of_base {r : PromptRequest}
    {b n : String} (hb : b ∈ userPromptBase r)
    (h : strContains b n = true) :
    strContains (generateUserPrompt r) n = true :=
  strContains_joinSep "\n"
    (List.mem_append_left _ (List.mem_append_left _
      (List.mem_append_left _ hb))) h

/-- C7: for the fixture input (topic "청년 창업 지원 정책 발표",
press_release, intermediate) and any rule-pack whose required sections
are `[headline, subhead, lede, body, quote, contact]`: the instruction
payload contains all six section display names (unknown keys `subhead`
and `lede` verbatim), every entry of the dos and donts lists verbatim,
and the 600-token ceiling; the task payload contains the literal topic
and the level display name "중급"; and both payloads are the ordered
concatenation of their blocks, where only the optional blocks can be
absent. -/
theorem prompt_assembly_end_to_end (id tone : String)
    (dos donts compliance : List String) (modes : List (String × Mode)) :
    (∀ s ∈ (["제목", "subhead", "lede", "본문", "인용문", "연락처"] : List String),
      strContains
        (generateSystemPrompt (c7Config id tone dos donts compliance modes))
        s = true) ∧
    (∀ d ∈ dos,
      strContains
        (generateSystemPrompt (c7Config id tone dos donts compliance modes))
        d = true) ∧
    (∀ d ∈ donts,
      strContains
        (generateSystemPrompt (c7Config id tone dos donts compliance modes))
        d = true) ∧
    strContains
      (generateSystemPrompt (c7Config id tone dos donts compliance modes))
      "600" = true ∧
    strContains (generateUserPrompt c7Request) "청년 창업 지원 정책 발표" = true ∧
    strContains (generateUserPrompt c7Request) "중급" = true ∧
    (∀ c : SystemPromptConfig,
      generateSystemPrompt c =
        joinSep "\n" (systemPromptBase c ++ systemPromptCompliance c ++
          systemPromptAdditional c ++ systemPromptStrict c ++
          systemPromptClosing)) ∧
    (∀ c : SystemPromptConfig,
      systemPromptCompliance c = [] ∨
        systemPromptCompliance c = ["", "🔒 준수사항:"] ++
          c.rulepack.complianceRules.map
            (fun rule => "• " ++ getComplianceRuleDescription rule)) ∧
    (∀ c : SystemPromptConfig,
      systemPromptAdditional c = [] ∨
        systemPromptAdditional c = ["", "🎯 특별 요구사항:"] ++
          c.additionalRequirements.map (fun req => "• " ++ req)) ∧
    (∀ c : SystemPromptConfig,
      systemPromptStrict c = [] ∨
        systemPromptStrict c =
          ["", "⚠️ 엄격 모드: 출처 명시와 사실 검증을 강조하는 지침을 반드시 포함하세요."]) ∧
    (∀ r : PromptRequest,
      generateUserPrompt r =
        joinSep "\n" (userPromptBase r ++ userPromptContext r ++
          userPromptAdditional r ++ userPromptClosing)) := by
  have hsecmem : joinSep "\n"
      ((getRequiredSectionsForMode
        (c7Config id tone dos donts compliance modes).rulepack
        (c7Config id tone dos donts compliance modes).mode).map
        (fun s => "• " ++ getSectionDisplayName s)) ∈
      systemPromptBase (c7Config id tone dos donts compliance modes) := by
    simp [systemPromptBase]
  have hdosmem : joinSep "\n"
      ((c7Config id tone dos donts compliance modes).rulepack.dos.map
        (fun d => "• " ++ d)) ∈
      systemPromptBase (c7Config id tone dos donts compliance modes) := by
    simp [systemPromptBase]
  have hdontsmem : joinSep "\n"
      ((c7Config id tone dos donts compliance modes).rulepack.donts.map
        (fun d => "• " ++ d)) ∈
      systemPromptBase (c7Config id tone dos donts compliance modes) := by
    simp [systemPromptBase]
  have h600mem : ("6. " ++
      toString (getTokenLimitForLevel
        (c7Config id tone dos donts compliance modes).level) ++
      "토큰 이내 작성 지침을 포함하세요") ∈
      systemPromptBase (c7Config id tone dos donts compliance modes) := by
    simp [systemPromptBase]
  have htopicmem : ("📌 주제: " ++ c7Request.topic) ∈
      userPromptBase c7Request := by
    simp [userPromptBase]
  have hlevelmem : ("📊 수준: " ++ getLevelDisplayName c7Request.level) ∈
      userPromptBase c7Request := by
    simp [userPromptBase]
  have hbullet : ∀ (l : List String) (d : String), d ∈ l →
      strContains (joinSep "\n" (l.map (fun x => "• " ++ x))) d = true := by
    intro l d hd
    have h1 : listIsSub d.data ("• " ++ d).data = true := by
      rw [String.data_append]
      exact listIsSub_append_right _ (listIsSub_refl _)
    exact listIsSub_trans h1
      (listIsSub_joinSep "\n" _ _ (List.mem_map_of_mem _ hd))
  refine ⟨?_, ?_, ?_, ?_, ?_, ?_, fun c => rfl, ?_, ?_, ?_, fun r => rfl⟩
  · intro s hs
    refine generateSystemPrompt_contains_of_base hsecmem ?_
    have hall : ∀ x ∈ (["제목", "subhead", "lede", "본문", "인용문", "연락처"] :
        List String),
        strContains (joinSep "\n"
          ((["headline", "subhead", "lede", "body", "quote", "contact"] :
            List String).map
            (fun s => "• " ++ getSectionDisplayName s))) x = true := by
      decide
    exact hall s hs
  · intro d hd
    exact generateSystemPrompt_contains_of_base hdosmem (hbullet dos d hd)
  · intro d hd
    exact generateSystemPrompt_contains_of_base hdontsmem (hbullet donts d hd)
  · refine generateSystemPrompt_contains_of_base h600mem ?_
    have h : strContains
        ("6. " ++ toString (600 : Nat) ++ "토큰 이내 작성 지침을 포함하세요")
        "600" = true := by decide
    exact h
  · refine generateUserPrompt_contains_of_base htopicmem ?_
    decide
  · refine generateUserPrompt_contains_of_base hlevelmem ?_
    decide
  · intro c
    by_cases h : c.rulepack.complianceRules = []
    · left
      simp [systemPromptCompliance, h]
    · right
      simp [systemPromptCompliance, h]
  · intro c
    by_cases h : c.additionalRequirements = []
    · left
      simp [systemPromptAdditional, h]
    · right
      simp [systemPromptAdditional, h]
  · intro c
    by_cases h : c.strictMode = true
    · right
      simp [systemPromptStrict, h]
    · left
      simp [systemPromptStrict, h]

/-- C7 witness: a concrete rule-pack with one do and one dont — the
instruction payload contains the section names, the do and the dont
verbatim and the 600-token ceiling; the task payload contains the topic
and "중급". -/
theorem prompt_assembly_end_to_end_witness :
    strContains (generateSystemPrompt (c7Config "press_v1"
      "public_official_v1" ["객관적 사실만 담기"] ["과장 표현 금지"] [] [])) "제목"
        = true ∧
    strContains (generateSystemPrompt (c7Config "press_v1"
      "public_official_v1" ["객관적 사실만 담기"] ["과장 표현 금지"] [] []))
      "subhead" = true ∧
    strContains (generateSystemPrompt (c7Config "press_v1"
      "public_official_v1" ["객관적 사실만 담기"] ["과장 표현 금지"] [] []))
      "객관적 사실만 담기" = true ∧
    strContains (generateSystemPrompt (c7Config "press_v1"
      "public_official_v1" ["객관적 사실만 담기"] ["과장 표현 금지"] [] []))
      "과장 표현 금지" = true ∧
    strContains (generateSystemPrompt (c7Config "press_v1"
      "public_official_v1" ["객관적 사실만 담기"] ["과장 표현 금지"] [] [])) "600"
        = true ∧
    strContains (generateUserPrompt c7Request) "청년 창업 지원 정책 발표" = true ∧
    strContains (generateUserPrompt c7Request) "중급" = true := by
  have h := prompt_assembly_end_to_end "press_v1" "public_official_v1"
    ["객관적 사실만 담기"] ["과장 표현 금지"] [] []
  exact ⟨h.1 "제목" (by decide), h.1 "subhead" (by decide),
    h.2.1 "객관적 사실만 담기" (by decide), h.2.2.1 "과장 표현 금지" (by decide),
    h.2.2.2.1, h.2.2.2.2.1, h.2.2.2.2.2.1⟩

/-! ### Checklist parsing (C8) -/

/-- A line the header regex accepts starts with two `#`. -/
theorem isCategoryHeader_shape {t : List Char}
    (h : isCategoryHeader t = true) :
    ∃ c3 rest, t = '#' :: '#' :: c3 :: rest := by
  rcases t with _ | ⟨c1, _ | ⟨c2, _ | ⟨c3, rest⟩⟩⟩
  · simp [isCategoryHeader] at h
  · simp [isCategoryHeader] at h
  · simp [isCategoryHeader] at h
  · cases rest with
    | nil =>
      simp only [isCategoryHeader, Bool.and_eq_true, beq_iff_eq] at h
      exact ⟨c3, [], by rw [h.1.1, h.1.2]⟩
    | cons c4 rest2 =>
      simp only [isCategoryHeader, Bool.and_eq_true, beq_iff_eq] at h
      exact ⟨c3, c4 :: rest2, by rw [h.1.1, h.1.2]⟩

/-- C8: the checklist parser's line discipline — blank lines and the
top-level `"# "` title line leave the state unchanged; a category
header flushes the previous category (dropping it when it accumulated
no items), starts the new category and resets the item accumulator; an
unchecked `"- [ ]"` item line appends its description to the current
category; and the two-category fixture (3 items then 2 items) parses
into exactly those two categories in source order, a zero-item category
being dropped. -/
theorem checklist_parsing (st : ParseState) (line : List Char) :
    ((trimChars line = [] ∨ listIsPre ['#', ' '] (trimChars line) = true) →
      parseStep st line = st) ∧
    (isCategoryHeader (trimChars line) = true →
      parseStep st line =
        { currentCategory := String.mk (stripHeaderChars (trimChars line)),
          currentItems := [],
          acc := st.acc ++
            (if st.currentCategory ≠ "" ∧ st.currentItems ≠ [] then
              [{ category := st.currentCategory, items := st.currentItems }]
            else []) }) ∧
    (listIsPre ['-', ' ', '[', ' ', ']'] (trimChars line) = true →
      parseStep st line =
        { st with currentItems :=
            st.currentItems ++ [String.mk (stripItemTag (trimChars line))] }) ∧
    parseMarkdownChecklist
        ("# 보도자료 체크리스트\n\n## 구조 점검\n- [ ] 항목1\n- [ ] 항목2\n- [ ] 항목3\n\n## 내용 점검\n- [ ] 항목4\n- [ ] 항목5\n") =
      [{ category := "구조 점검", items := ["항목1", "항목2", "항목3"] },
       { category := "내용 점검", items := ["항목4", "항목5"] }] ∧
    parseMarkdownChecklist "## 빈 카테고리\n## 실제 카테고리\n- [ ] 항목" =
      [{ category := "실제 카테고리", items := ["항목"] }] := by
  refine ⟨?_, ?_, ?_, by decide, by decide⟩
  · intro h
    rcases h with h | h
    · simp [parseStep, h]
    · simp [parseStep, h]
  · intro h
    obtain ⟨c3, rest, ht⟩ := isCategoryHeader_shape h
    have hne : decide (trimChars line = []) = false := by rw [ht]; rfl
    have hpre : listIsPre ['#', ' '] (trimChars line) = false := by
      rw [ht]; rfl
    simp only [parseStep, hne, hpre, h, Bool.false_or, Bool.or_false,
      if_true, if_false, Bool.false_eq_true, ite_true, ite_false]
    split <;> simp
  · intro h
    obtain ⟨v, hv⟩ := (listIsPre_iff _ _).mp h
    have hne : decide (trimChars line = []) = false := by rw [← hv]; rfl
    have hpre : listIsPre ['#', ' '] (trimChars line) = false := by
      rw [← hv]; rfl
    have hhead : isCategoryHeader (trimChars line) = false := by
      rw [← hv]; rfl
    simp [parseStep, hne, hpre, hhead, h]

/-- C8 witness: one header step on a state holding an open category
with one item flushes that category and opens the new one; the fixture
conjuncts are closed instances of the theorem. -/
theorem checklist_parsing_witness :
    parseStep ⟨"구조 점검", ["항목1"], []⟩ ("## 내용 점검").data =
      ⟨"내용 점검", [], [⟨"구조 점검", ["항목1"]⟩]⟩ ∧
    parseStep ⟨"구조 점검", ["항목1"], []⟩ ("- [ ] 항목2").data =
      ⟨"구조 점검", ["항목1", "항목2"], []⟩ ∧
    parseMarkdownChecklist "## 빈 카테고리\n## 실제 카테고리\n- [ ] 항목" =
      [{ category := "실제 카테고리", items := ["항목"] }] := by
  have h1 := checklist_parsing ⟨"구조 점검", ["항목1"], []⟩ ("## 내용 점검").data
  have h2 := checklist_parsing ⟨"구조 점검", ["항목1"], []⟩ ("- [ ] 항목2").data
  refine ⟨?_, ?_, h1.2.2.2.2⟩
  · rw [h1.2.1 (by decide)]
    decide
  · rw [h2.2.2.1 (by decide)]
    decide

/-! ### Request handler (C9, C10) -/

/-- C9: fail-fast error surfacing. A request denied by admission
control, failing schema validation, lacking a rule-pack for its format,
or exceeding the pre-call token allowance is answered with the
corresponding structured error immediately, and the external model call
is never made (the `Bool` component of `handlePrompt` records whether
the call happened). -/
theorem handler_fails_fast (env : HandlerEnv) :
    (env.rateAllowed = false → handlePrompt env = (.rateLimited, false)) ∧
    (env.rateAllowed = true → env.parsedInput = none →
      handlePrompt env = (.invalidInput, false)) ∧
    (∀ u : UserInput, env.rateAllowed = true → env.parsedInput = some u →
      env.rulepackFor = none →
      handlePrompt env = (.rulepackNotFound, false)) ∧
    (∀ (u : UserInput) (rp : Rulepack), env.rateAllowed = true →
      env.parsedInput = some u → env.rulepackFor = some rp →
      (checkTokenLimits (handlerSystemPrompt u rp) (handlerUserPrompt u)
        u.format u.level).allowed = false →
      handlePrompt env =
        (.tokenLimitExceeded
          (checkTokenLimits (handlerSystemPrompt u rp) (handlerUserPrompt u)
            u.format u.level).usage.promptTokens
          (checkTokenLimits (handlerSystemPrompt u rp) (handlerUserPrompt u)
            u.format u.level).limit
          (checkTokenLimits (handlerSystemPrompt u rp) (handlerUserPrompt u)
            u.format u.level).suggestions, false)) := by
  refine ⟨?_, ?_, ?_, ?_⟩
  · intro h
    simp [handlePrompt, h]
  · intro h1 h2
    simp [handlePrompt, h1, h2]
  · intro u h1 h2 h3
    simp [handlePrompt, h1, h2, h3]
  · intro u rp h1 h2 h3 h4
    simp [handlePrompt, h1, h2, h3, h4]

/-- C10: the response's validation block. With `includeWarnings`
explicitly `false` the quality gate is skipped and the block is the
constant `{passed := true, score := 100, checklist := []}`; whenever the
gate runs, `passed` is `isValid && scorecard ≥ 80`, and the scorecard
reaches 80 exactly when at least 6 of the 7 checks passed. -/
theorem response_validation_block (env : HandlerEnv) (u : UserInput)
    (rp : Rulepack) (o : UserOptions) (content : String) (fmt : Format)
    (lvl : ValidationLevel) :
    (env.rateAllowed = true → env.parsedInput = some u →
      env.rulepackFor = some rp →
      (checkTokenLimits (handlerSystemPrompt u rp) (handlerUserPrompt u)
        u.format u.level).allowed = true →
      u.options = some o → o.includeWarnings = false →
      (handlePrompt env).1 =
        .success (env.llm (handlerSystemPrompt u rp) (handlerUserPrompt u))
          { passed := true, score := 100, checklist := [], warnings := [],
            suggestions := none }) ∧
    ((buildResponseValidation (validatePrompt content fmt lvl)).passed =
      ((validatePrompt content fmt lvl).validation.isValid &&
        decide ((validatePrompt content fmt lvl).checklist.score ≥ 80))) ∧
    ((validatePrompt content fmt lvl).checklist.score ≥ 80 ↔
      (validatePrompt content fmt lvl).checklist.passedChecks ≥ 6) := by
  refine ⟨?_, rfl, ?_⟩
  · intro h1 h2 h3 h4 h5 h6
    simp [handlePrompt, h1, h2, h3, h4, h5, h6]
  · rw [validatePrompt_score]
    have hle := validatePrompt_passedChecks_le content fmt lvl
    set p := (validatePrompt content fmt lvl).checklist.passedChecks with hp
    interval_cases p <;> simp [roundPct]

set_option maxRecDepth 20000 in
/-- C9 witness: concrete environments for each early-exit — admission
denial, schema failure, unknown rule-pack, and an over-budget payload
(1000-character topic at `basic`) — each returns its error with the
external call flag `false`. -/
theorem handler_fails_fast_witness :
    handlePrompt
        { rateAllowed := false, parsedInput := none, rulepackFor := none,
          llm := fun _ _ => "" } = (.rateLimited, false) ∧
    handlePrompt
        { rateAllowed := true, parsedInput := none, rulepackFor := none,
          llm := fun _ _ => "" } = (.invalidInput, false) ∧
    handlePrompt
        { rateAllowed := true,
          parsedInput := some ⟨"정책 발표", .press_release, .basic, none, none,
            none, none, none⟩,
          rulepackFor := none, llm := fun _ _ => "" } =
      (.rulepackNotFound, false) ∧
    (handlePrompt
        { rateAllowed := true,
          parsedInput := some ⟨String.mk (List.replicate 1000 'a'),
            .press_release, .basic, none, none, none, none, none⟩,
          rulepackFor := some ⟨"press_v1", ["headline"], "t", [], [], [], []⟩,
          llm := fun _ _ => "" }).2 = false := by
  have h1 := handler_fails_fast
    { rateAllowed := false, parsedInput := none, rulepackFor := none,
      llm := fun _ _ => "" }
  have h2 := handler_fails_fast
    { rateAllowed := true, parsedInput := none, rulepackFor := none,
      llm := fun _ _ => "" }
  have h3 := handler_fails_fast
    { rateAllowed := true,
      parsedInput := some ⟨"정책 발표", .press_release, .basic, none, none,
        none, none, none⟩,
      rulepackFor := none, llm := fun _ _ => "" }
  have h4 := handler_fails_fast
    { rateAllowed := true,
      parsedInput := some ⟨String.mk (List.replicate 1000 'a'),
        .press_release, .basic, none, none, none, none, none⟩,
      rulepackFor := some ⟨"press_v1", ["headline"], "t", [], [], [], []⟩,
      llm := fun _ _ => "" }
  have hallow : (checkTokenLimits
      (handlerSystemPrompt
        ⟨String.mk (List.replicate 1000 'a'), .press_release, .basic, none,
          none, none, none, none⟩
        ⟨"press_v1", ["headline"], "t", [], [], [], []⟩)
      (handlerUserPrompt
        ⟨String.mk (List.replicate 1000 'a'), .press_release, .basic, none,
          none, none, none, none⟩)
      .press_release .basic).allowed = false := by decide
  refine ⟨h1.1 rfl, h2.2.1 rfl rfl, h3.2.2.1 _ rfl rfl rfl, ?_⟩
  rw [h4.2.2.2 _ _ rfl rfl rfl hallow]

set_option maxRecDepth 20000 in
/-- C10 witness: a successful request with `includeWarnings` explicitly
`false` (short topic, `advanced` budget) gets the constant validation
block; and a concrete validator run shows the 80-point threshold equals
the 6-of-7 pass count. -/
theorem response_validation_block_witness :
    (handlePrompt
        { rateAllowed := true,
          parsedInput := some ⟨"정책", .press_release, .advanced, none, none,
            none, none, some ⟨false, false, none⟩⟩,
          rulepackFor := some ⟨"press_v1", ["headline"], "t", [], [], [], []⟩,
          llm := fun _ _ => "내용" }).1 =
      .success "내용"
        { passed := true, score := 100, checklist := [], warnings := [],
          suggestions := none } ∧
    ((validatePrompt "당신은 전문가입니다" .press_release .basic).checklist.score
        ≥ 80 ↔
      (validatePrompt "당신은 전문가입니다" .press_release
        .basic).checklist.passedChecks ≥ 6) := by
  have h := response_validation_block
    { rateAllowed := true,
      parsedInput := some ⟨"정책", .press_release, .advanced, none, none,
        none, none, some ⟨false, false, none⟩⟩,
      rulepackFor := some ⟨"press_v1", ["headline"], "t", [], [], [], []⟩,
      llm := fun _ _ => "내용" }
    ⟨"정책", .press_release, .advanced, none, none, none, none,
      some ⟨false, false, none⟩⟩
    ⟨"press_v1", ["headline"], "t", [], [], [], []⟩
    ⟨false, false, none⟩ "당신은 전문가입니다" .press_release .basic
  have hallow : (checkTokenLimits
      (handlerSystemPrompt
        ⟨"정책", .press_release, .advanced, none, none, none, none,
          some ⟨false, false, none⟩⟩
        ⟨"press_v1", ["headline"], "t", [], [], [], []⟩)
      (handlerUserPrompt
        ⟨"정책", .press_release, .advanced, none, none, none, none,
          some ⟨false, false, none⟩⟩)
      .press_release .advanced).allowed = true := by decide
  exact ⟨h.1 rfl rfl rfl hallow rfl rfl, h.2.2⟩
